import Mathlib

/-!
Shallow embedding of the margin-aggregation core of `src/app.py`
(cube_viewer).  The program ingests sales-order records, filters malformed
rows, derives a customer classification from `price_library_id`, computes a
margin percentage per row, pivots mean margins into a 5×5 matrix keyed by
customer type × customer size, builds a constant ideal matrix from the
policy tables, and subtracts the two.

Floats are modelled as `Fval`: an exact rational, +∞, −∞ or NaN, with the
IEEE-754 special-value rules for the operations the program performs
(division by zero, addition, subtraction, scaling by the positive constant
100).  Every numeric literal in the program is exactly representable, so no
rounding behaviour is lost.
-/

/-- A pandas float cell: finite rational, +∞, −∞, or NaN. -/
inductive Fval where
  | fin (q : ℚ)
  | pinf
  | ninf
  | nan
deriving DecidableEq

/-- IEEE division of finite values: `a / 0` is +∞, −∞ or NaN according to
the sign of `a` (the operands come from nonnegative data, so signed zero
never arises). -/
def ieeeDiv (a b : ℚ) : Fval :=
  if b = 0 then
    (if 0 < a then Fval.pinf else if a < 0 then Fval.ninf else Fval.nan)
  else Fval.fin (a / b)

/-- Multiplication by the positive literal `100` (line 27 of app.py). -/
def Fval.mul100 : Fval → Fval
  | Fval.fin q => Fval.fin (q * 100)
  | Fval.pinf => Fval.pinf
  | Fval.ninf => Fval.ninf
  | Fval.nan => Fval.nan

/-- IEEE addition on extended values. -/
def Fval.add : Fval → Fval → Fval
  | Fval.nan, _ => Fval.nan
  | _, Fval.nan => Fval.nan
  | Fval.pinf, Fval.ninf => Fval.nan
  | Fval.ninf, Fval.pinf => Fval.nan
  | Fval.pinf, _ => Fval.pinf
  | _, Fval.pinf => Fval.pinf
  | Fval.ninf, _ => Fval.ninf
  | _, Fval.ninf => Fval.ninf
  | Fval.fin a, Fval.fin b => Fval.fin (a + b)

/-- IEEE negation. -/
def Fval.neg : Fval → Fval
  | Fval.fin q => Fval.fin (-q)
  | Fval.pinf => Fval.ninf
  | Fval.ninf => Fval.pinf
  | Fval.nan => Fval.nan

/-- IEEE subtraction. -/
def Fval.sub (a b : Fval) : Fval := a.add b.neg

/-- Division by a positive record count `n` (used by `mean` with `n ≥ 1`). -/
def Fval.divNat (a : Fval) (n : ℕ) : Fval :=
  match a with
  | Fval.fin q => Fval.fin (q / n)
  | b => b

/-- One sales-order record, i.e. one row of the JSON response.  The columns
the aggregation core reads: `Sell Price`, `Item Cost`, `price_library_id`,
`Supplier Name`, `Sales Discount Group` (the last is `astype(str)`-coerced
on line 28, so it is modelled as a plain string). -/
structure SalesRecord where
  sellPrice : Option ℚ
  itemCost : Option ℚ
  priceLibraryId : Option String
  supplierName : String
  salesDiscountGroup : String
deriving DecidableEq

/-- Line 11 of app.py. -/
def CUSTOMER_TYPES : List String := ["IND_OEM", "MOB_OEM", "JOBBER", "USER", "TP"]

/-- Line 12 of app.py. -/
def CUSTOMER_SIZES : List String := ["HUGE", "LARGE", "MED", "SMALL", "TINY"]

/-- Line 13 of app.py. -/
def MINIMUM_MARGINS : List (String × ℚ) :=
  [("IND_OEM", 35), ("MOB_OEM", 28), ("JOBBER", 40), ("USER", 35), ("TP", 42)]

/-- Line 14 of app.py. -/
def SIZE_OFFSETS : List (String × ℚ) :=
  [("HUGE", 0), ("LARGE", 2), ("MED", 4), ("SMALL", 6), ("TINY", 8)]

/-- Python dict access `d[k]`; in the program it is only ever applied to
keys present in the dict, so the default is never reached. -/
def dictGet (d : List (String × ℚ)) (k : String) : ℚ := (d.lookup k).getD 0

/-- Line 26 of app.py: `str.extract(r'^(.*?)_(HUGE|LARGE|MED|SMALL|TINY)$')`.
The alternation is anchored at the end of the string and no size token is a
suffix of another, so a full match exists exactly when the string ends in
`_<size>` for one of the five tokens, and then the (non-greedy) first group
is everything before that final suffix.  No match yields NaN classification,
modelled as `none`. -/
def classify (s : String) : Option (String × String) :=
  match CUSTOMER_SIZES.find? (fun sz => (("_" ++ sz).data).isSuffixOf s.data) with
  | some sz => some (⟨s.data.take (s.data.length - (sz.data.length + 1))⟩, sz)
  | none => none

/-- Line 27 of app.py: `((Sell Price - Item Cost) / Sell Price) * 100`. -/
def marginPct (sell cost : ℚ) : Fval := (ieeeDiv (sell - cost) sell).mul100

/-- The derived `Margin %` column of a row (defined whenever the row passed
the notna filters; NaN otherwise). -/
def recordMargin (r : SalesRecord) : Fval :=
  match r.sellPrice, r.itemCost with
  | some sp, some c => marginPct sp c
  | _, _ => Fval.nan

/-- The derived `Customer Type`/`Customer Size` columns of a row. -/
def recordClass (r : SalesRecord) : Option (String × String) :=
  match r.priceLibraryId with
  | some s => classify s
  | none => none

/-- Lines 23-25 of app.py: a row is kept when `Sell Price` is present and
nonnegative, `Item Cost` is present and nonnegative, and `price_library_id`
is present. -/
def validRecord (r : SalesRecord) : Bool :=
  (match r.sellPrice with | some sp => decide (0 ≤ sp) | none => false) &&
  (match r.itemCost with | some c => decide (0 ≤ c) | none => false) &&
  r.priceLibraryId.isSome

/-- The pure core of `fetch_data_from_json_url` (lines 22-29): row filtering
on the parsed JSON.  The derived columns added on lines 26-27 are recomputed
per row by `recordClass` and `recordMargin`. -/
def fetch_data_from_json_url (rows : List SalesRecord) : List SalesRecord :=
  rows.filter validRecord

/-- Lines 60-62 of app.py: drop rows whose `Sales Discount Group` starts
with `Z`, then drop rows whose group ends with `Z`. -/
def exclude_misc (rows : List SalesRecord) : List SalesRecord :=
  (rows.filter (fun r => !(r.salesDiscountGroup.startsWith "Z"))).filter
    (fun r => !(r.salesDiscountGroup.endsWith "Z"))

/-- Lines 64-65 of app.py: `none` is the `ALL` sentinel, `some name` keeps
only that supplier's rows. -/
def supplier_filter (sel : Option String) (rows : List SalesRecord) : List SalesRecord :=
  match sel with
  | some name => rows.filter (fun r => decide (r.supplierName = name))
  | none => rows

/-- Line 84 of app.py: the per-discount-group subset (`none` when no group
breakdown is taken). -/
def group_filter (grp : Option String) (rows : List SalesRecord) : List SalesRecord :=
  match grp with
  | some g => rows.filter (fun r => decide (r.salesDiscountGroup = g))
  | none => rows

/-- The rows of one (type, size) pivot group: pandas `groupby` drops rows
whose key is NaN, i.e. rows with an unparseable `price_library_id`. -/
def groupRows (rows : List SalesRecord) (t s : String) : List SalesRecord :=
  rows.filter (fun r => decide (recordClass r = some (t, s)))

/-- NaN test on a float cell. -/
def Fval.isNaN : Fval → Bool
  | Fval.nan => true
  | _ => false

/-- pandas `mean` over a float column: NaN entries are skipped; an empty
group (after skipping) is NaN; otherwise the IEEE sum divided by the
count. -/
def meanFval (ms : List Fval) : Fval :=
  match ms.filter (fun m => !(m.isNaN)) with
  | [] => Fval.nan
  | m :: rest => ((m :: rest).foldl Fval.add (Fval.fin 0)).divNat (m :: rest).length

/-- One cell of the actual-margin pivot after reindexing: the mean margin of
the (t, s) group, NaN when the group is empty. -/
def pivotCell (rows : List SalesRecord) (t s : String) : Fval :=
  meanFval ((groupRows rows t s).map recordMargin)

/-- A small data frame: ordered rows of (row label, ordered (column label,
cell) pairs). -/
abbrev DFrame := List (String × List (String × Fval))

/-- Lines 71-72 (and 85-86) of app.py: `pivot_table(values='Margin %', ...,
aggfunc='mean')` followed by `reindex(index=CUSTOMER_TYPES,
columns=CUSTOMER_SIZES)`.  The reindex fixes the row/column labels to the
two enumerations in order; label pairs absent from the pivot become NaN,
which coincides with `pivotCell` on an empty group. -/
def pivot_reindexed (rows : List SalesRecord) : DFrame :=
  CUSTOMER_TYPES.map (fun t => (t, CUSTOMER_SIZES.map (fun s => (s, pivotCell rows t s))))

/-- Lines 31-36 of app.py: the ideal matrix, built by the double loop
`matrix.loc[ctype, csize] = MINIMUM_MARGINS[ctype] + SIZE_OFFSETS[csize]`
and cast to float. -/
def get_ideal_margin_matrix : DFrame :=
  CUSTOMER_TYPES.map (fun t => (t, CUSTOMER_SIZES.map (fun s =>
    (s, Fval.fin (dictGet MINIMUM_MARGINS t + dictGet SIZE_OFFSETS s)))))

/-- Cell lookup in a frame by labels. -/
def dfGet (m : DFrame) (t s : String) : Option Fval :=
  (m.lookup t).bind (fun row => row.lookup s)

/-- pandas frame subtraction, label-aligned; the two frames subtracted in
the program always carry the identical fixed labels. -/
def dfSub (a b : DFrame) : DFrame :=
  a.map (fun tr => (tr.1, tr.2.map (fun sv =>
    (sv.1, Fval.sub sv.2 ((dfGet b tr.1 sv.1).getD Fval.nan)))))

/-- Line 74 (and 88) of app.py: `actual - ideal` on the reindexed pivot. -/
def diff_matrix (rows : List SalesRecord) : DFrame :=
  dfSub (pivot_reindexed rows) get_ideal_margin_matrix

/-- The record subset every displayed matrix is built from: fetch-stage
filtering, then the optional Z-group exclusion, the optional supplier
restriction, and the optional discount-group restriction. -/
def selected_rows (excl : Bool) (sel : Option String) (grp : Option String)
    (rows : List SalesRecord) : List SalesRecord :=
  group_filter grp (supplier_filter sel
    (if excl then exclude_misc (fetch_data_from_json_url rows)
     else fetch_data_from_json_url rows))

/-- Any actual-margin matrix the program renders (summary or per-group). -/
def pipeline_matrix (excl : Bool) (sel : Option String) (grp : Option String)
    (rows : List SalesRecord) : DFrame :=
  pivot_reindexed (selected_rows excl sel grp rows)

/-! ## Sample records used by concrete witnesses -/

/-- A well-formed record: sell 100, cost 55, id `JOBBER_SMALL`. -/
def sampleGood : SalesRecord := ⟨some 100, some 55, some "JOBBER_SMALL", "ACME", "A10"⟩

/-- Zero sell price with a positive cost. -/
def sampleZeroSellPosCost : SalesRecord := ⟨some 0, some 5, some "JOBBER_SMALL", "ACME", "A10"⟩

/-- Zero sell price with zero cost. -/
def sampleZeroZero : SalesRecord := ⟨some 0, some 0, some "JOBBER_SMALL", "ACME", "A10"⟩

/-- Missing sell price. -/
def sampleNoSell : SalesRecord := ⟨none, some 1, some "USER_MED", "ACME", "A10"⟩

/-- Parseable identifier whose customer type is not one of the five fixed
types. -/
def sampleFoo : SalesRecord := ⟨some 100, some 55, some "FOO_SMALL", "ACME", "A10"⟩

/-! ## Helper lemmas -/

lemma filter_map_fin (qs : List ℚ) :
    (qs.map Fval.fin).filter (fun m => !(m.isNaN)) = qs.map Fval.fin := by
  apply List.filter_eq_self.mpr
  intro m hm
  obtain ⟨q, hq, rfl⟩ := List.mem_map.mp hm
  rfl

lemma foldl_add_fin (qs : List ℚ) : ∀ a : ℚ,
    (qs.map Fval.fin).foldl Fval.add (Fval.fin a) = Fval.fin (a + qs.sum) := by
  induction qs with
  | nil => intro a; simp
  | cons q qs ih => intro a; simp [Fval.add, ih, add_assoc]

lemma lookup_map_self {β : Type} (g : String → β) :
    ∀ (l : List String) (t : String), t ∈ l →
      (l.map (fun x => (x, g x))).lookup t = some (g t) := by
  intro l
  induction l with
  | nil => intro t ht; cases ht
  | cons a l ih =>
    intro t ht
    by_cases h : t = a
    · subst h; simp [List.lookup]
    · rcases List.mem_cons.mp ht with h2 | h2
      · exact absurd h2 h
      · have hb : (t == a) = false := by simp [h]
        simp [List.lookup, hb, ih t h2]

lemma dfGet_pivot (rows : List SalesRecord) (t s : String)
    (ht : t ∈ CUSTOMER_TYPES) (hs : s ∈ CUSTOMER_SIZES) :
    dfGet (pivot_reindexed rows) t s = some (pivotCell rows t s) := by
  unfold dfGet pivot_reindexed
  rw [lookup_map_self _ _ _ ht]
  simp [lookup_map_self _ _ _ hs]

lemma dfGet_ideal (t s : String)
    (ht : t ∈ CUSTOMER_TYPES) (hs : s ∈ CUSTOMER_SIZES) :
    dfGet get_ideal_margin_matrix t s
      = some (Fval.fin (dictGet MINIMUM_MARGINS t + dictGet SIZE_OFFSETS s)) := by
  unfold dfGet get_ideal_margin_matrix
  rw [lookup_map_self _ _ _ ht]
  simp [lookup_map_self _ _ _ hs]
lemma noSfx_HUGE_LARGE (q : List Char) :
    ((['_', 'H', 'U', 'G', 'E'] : List Char).isSuffixOf (q ++ ['_', 'L', 'A', 'R', 'G', 'E'])) = false := by
  simp [List.isSuffixOf, List.reverse_append, List.isPrefixOf]

lemma noSfx_HUGE_MED (q : List Char) :
    ((['_', 'H', 'U', 'G', 'E'] : List Char).isSuffixOf (q ++ ['_', 'M', 'E', 'D'])) = false := by
  simp [List.isSuffixOf, List.reverse_append, List.isPrefixOf]

lemma noSfx_LARGE_MED (q : List Char) :
    ((['_', 'L', 'A', 'R', 'G', 'E'] : List Char).isSuffixOf (q ++ ['_', 'M', 'E', 'D'])) = false := by
  simp [List.isSuffixOf, List.reverse_append, List.isPrefixOf]

lemma noSfx_HUGE_SMALL (q : List Char) :
    ((['_', 'H', 'U', 'G', 'E'] : List Char).isSuffixOf (q ++ ['_', 'S', 'M', 'A', 'L', 'L'])) = false := by
  simp [List.isSuffixOf, List.reverse_append, List.isPrefixOf]

lemma noSfx_LARGE_SMALL (q : List Char) :
    ((['_', 'L', 'A', 'R', 'G', 'E'] : List Char).isSuffixOf (q ++ ['_', 'S', 'M', 'A', 'L', 'L'])) = false := by
  simp [List.isSuffixOf, List.reverse_append, List.isPrefixOf]

lemma noSfx_MED_SMALL (q : List Char) :
    ((['_', 'M', 'E', 'D'] : List Char).isSuffixOf (q ++ ['_', 'S', 'M', 'A', 'L', 'L'])) = false := by
  simp [List.isSuffixOf, List.reverse_append, List.isPrefixOf]

lemma noSfx_HUGE_TINY (q : List Char) :
    ((['_', 'H', 'U', 'G', 'E'] : List Char).isSuffixOf (q ++ ['_', 'T', 'I', 'N', 'Y'])) = false := by
  simp [List.isSuffixOf, List.reverse_append, List.isPrefixOf]

lemma noSfx_LARGE_TINY (q : List Char) :
    ((['_', 'L', 'A', 'R', 'G', 'E'] : List Char).isSuffixOf (q ++ ['_', 'T', 'I', 'N', 'Y'])) = false := by
  simp [List.isSuffixOf, List.reverse_append, List.isPrefixOf]

lemma noSfx_MED_TINY (q : List Char) :
    ((['_', 'M', 'E', 'D'] : List Char).isSuffixOf (q ++ ['_', 'T', 'I', 'N', 'Y'])) = false := by
  simp [List.isSuffixOf, List.reverse_append, List.isPrefixOf]

lemma noSfx_SMALL_TINY (q : List Char) :
    ((['_', 'S', 'M', 'A', 'L', 'L'] : List Char).isSuffixOf (q ++ ['_', 'T', 'I', 'N', 'Y'])) = false := by
  simp [List.isSuffixOf, List.reverse_append, List.isPrefixOf]

lemma yesSfx_HUGE (q : List Char) :
    ((['_', 'H', 'U', 'G', 'E'] : List Char).isSuffixOf (q ++ ['_', 'H', 'U', 'G', 'E'])) = true := by
  simp [List.isSuffixOf, List.reverse_append, List.isPrefixOf]

lemma yesSfx_LARGE (q : List Char) :
    ((['_', 'L', 'A', 'R', 'G', 'E'] : List Char).isSuffixOf (q ++ ['_', 'L', 'A', 'R', 'G', 'E'])) = true := by
  simp [List.isSuffixOf, List.reverse_append, List.isPrefixOf]

lemma yesSfx_MED (q : List Char) :
    ((['_', 'M', 'E', 'D'] : List Char).isSuffixOf (q ++ ['_', 'M', 'E', 'D'])) = true := by
  simp [List.isSuffixOf, List.reverse_append, List.isPrefixOf]

lemma yesSfx_SMALL (q : List Char) :
    ((['_', 'S', 'M', 'A', 'L', 'L'] : List Char).isSuffixOf (q ++ ['_', 'S', 'M', 'A', 'L', 'L'])) = true := by
  simp [List.isSuffixOf, List.reverse_append, List.isPrefixOf]

lemma yesSfx_TINY (q : List Char) :
    ((['_', 'T', 'I', 'N', 'Y'] : List Char).isSuffixOf (q ++ ['_', 'T', 'I', 'N', 'Y'])) = true := by
  simp [List.isSuffixOf, List.reverse_append, List.isPrefixOf]

lemma classify_append_HUGE (p : String) :
    classify (p ++ "_" ++ "HUGE") = some (p, "HUGE") := by
  have hdata : (p ++ "_" ++ "HUGE").data = p.data ++ ['_', 'H', 'U', 'G', 'E'] := by
    simp [String.data_append]
  have e0 : ("_" ++ "HUGE").data = ['_', 'H', 'U', 'G', 'E'] := rfl
  simp only [classify, hdata, List.find?, e0, yesSfx_HUGE]
  simp only [List.length_append, List.length_cons, List.length_nil, String.length]
  norm_num

lemma classify_append_LARGE (p : String) :
    classify (p ++ "_" ++ "LARGE") = some (p, "LARGE") := by
  have hdata : (p ++ "_" ++ "LARGE").data = p.data ++ ['_', 'L', 'A', 'R', 'G', 'E'] := by
    simp [String.data_append]
  have e0 : ("_" ++ "HUGE").data = ['_', 'H', 'U', 'G', 'E'] := rfl
  have e1 : ("_" ++ "LARGE").data = ['_', 'L', 'A', 'R', 'G', 'E'] := rfl
  simp only [classify, hdata, List.find?, e0, e1, noSfx_HUGE_LARGE, yesSfx_LARGE]
  simp only [List.length_append, List.length_cons, List.length_nil, String.length]
  norm_num

lemma classify_append_MED (p : String) :
    classify (p ++ "_" ++ "MED") = some (p, "MED") := by
  have hdata : (p ++ "_" ++ "MED").data = p.data ++ ['_', 'M', 'E', 'D'] := by
    simp [String.data_append]
  have e0 : ("_" ++ "HUGE").data = ['_', 'H', 'U', 'G', 'E'] := rfl
  have e1 : ("_" ++ "LARGE").data = ['_', 'L', 'A', 'R', 'G', 'E'] := rfl
  have e2 : ("_" ++ "MED").data = ['_', 'M', 'E', 'D'] := rfl
  simp only [classify, hdata, List.find?, e0, e1, e2, noSfx_HUGE_MED, noSfx_LARGE_MED, yesSfx_MED]
  simp only [List.length_append, List.length_cons, List.length_nil, String.length]
  norm_num

lemma classify_append_SMALL (p : String) :
    classify (p ++ "_" ++ "SMALL") = some (p, "SMALL") := by
  have hdata : (p ++ "_" ++ "SMALL").data = p.data ++ ['_', 'S', 'M', 'A', 'L', 'L'] := by
    simp [String.data_append]
  have e0 : ("_" ++ "HUGE").data = ['_', 'H', 'U', 'G', 'E'] := rfl
  have e1 : ("_" ++ "LARGE").data = ['_', 'L', 'A', 'R', 'G', 'E'] := rfl
  have e2 : ("_" ++ "MED").data = ['_', 'M', 'E', 'D'] := rfl
  have e3 : ("_" ++ "SMALL").data = ['_', 'S', 'M', 'A', 'L', 'L'] := rfl
  simp only [classify, hdata, List.find?, e0, e1, e2, e3, noSfx_HUGE_SMALL, noSfx_LARGE_SMALL, noSfx_MED_SMALL, yesSfx_SMALL]
  simp only [List.length_append, List.length_cons, List.length_nil, String.length]
  norm_num

lemma classify_append_TINY (p : String) :
    classify (p ++ "_" ++ "TINY") = some (p, "TINY") := by
  have hdata : (p ++ "_" ++ "TINY").data = p.data ++ ['_', 'T', 'I', 'N', 'Y'] := by
    simp [String.data_append]
  have e0 : ("_" ++ "HUGE").data = ['_', 'H', 'U', 'G', 'E'] := rfl
  have e1 : ("_" ++ "LARGE").data = ['_', 'L', 'A', 'R', 'G', 'E'] := rfl
  have e2 : ("_" ++ "MED").data = ['_', 'M', 'E', 'D'] := rfl
  have e3 : ("_" ++ "SMALL").data = ['_', 'S', 'M', 'A', 'L', 'L'] := rfl
  have e4 : ("_" ++ "TINY").data = ['_', 'T', 'I', 'N', 'Y'] := rfl
  simp only [classify, hdata, List.find?, e0, e1, e2, e3, e4, noSfx_HUGE_TINY, noSfx_LARGE_TINY, noSfx_MED_TINY, noSfx_SMALL_TINY, yesSfx_TINY]
  simp only [List.length_append, List.length_cons, List.length_nil, String.length]
  norm_num

lemma classify_eq_none_of_no_decomp (s : String)
    (h : ¬ ∃ p sz, sz ∈ CUSTOMER_SIZES ∧ s = p ++ "_" ++ sz) : classify s = none := by
  cases heq : CUSTOMER_SIZES.find? (fun sz => (("_" ++ sz).data).isSuffixOf s.data) with
  | none => unfold classify; rw [heq]
  | some sz =>
    exfalso
    apply h
    have hmem : sz ∈ CUSTOMER_SIZES := List.mem_of_find?_eq_some heq
    have h0 := List.find?_some heq
    have hsuf : ("_" ++ sz).data <:+ s.data := by simpa using h0
    obtain ⟨t, ht⟩ := hsuf
    refine ⟨⟨t⟩, sz, hmem, ?_⟩
    have hd : s.data = ((⟨t⟩ : String) ++ "_" ++ sz).data := by
      rw [String.data_append, String.data_append, ← ht]
      simp [String.data_append]
    calc s = (⟨s.data⟩ : String) := rfl
    _ = ⟨((⟨t⟩ : String) ++ "_" ++ sz).data⟩ := by rw [hd]
    _ = (⟨t⟩ : String) ++ "_" ++ sz := rfl

/-- C6: the classifier maps any string of the form `<type>_<size>` with
`<size>` one of the five size tokens to the pair (everything before the
final `_<size>` suffix, that token), and returns no classification for a
string that admits no such decomposition (i.e. does not end in `_<size>`
for any of the five tokens). -/
theorem c6_classifier :
    (∀ (p sz : String), sz ∈ CUSTOMER_SIZES → classify (p ++ "_" ++ sz) = some (p, sz)) ∧
    (∀ s : String, (¬ ∃ p sz, sz ∈ CUSTOMER_SIZES ∧ s = p ++ "_" ++ sz) → classify s = none) := by
  constructor
  · intro p sz hsz
    simp only [CUSTOMER_SIZES, List.mem_cons, List.not_mem_nil, or_false] at hsz
    rcases hsz with rfl | rfl | rfl | rfl | rfl
    · exact classify_append_HUGE p
    · exact classify_append_LARGE p
    · exact classify_append_MED p
    · exact classify_append_SMALL p
    · exact classify_append_TINY p
  · exact classify_eq_none_of_no_decomp

/-- Witness for C6 at the concrete inputs `"ACME" ++ "_" ++ "LARGE"` and
`"XYZ"`. -/
theorem c6_classifier_witness :
    classify ("ACME" ++ "_" ++ "LARGE") = some ("ACME", "LARGE") ∧ classify "XYZ" = none := by
  constructor
  · exact c6_classifier.1 "ACME" "LARGE" (by decide)
  · apply c6_classifier.2 "XYZ"
    rintro ⟨p, sz, hmem, heqd⟩
    have hdat := congrArg String.data heqd
    simp only [CUSTOMER_SIZES, List.mem_cons, List.not_mem_nil, or_false] at hmem
    rcases hmem with rfl | rfl | rfl | rfl | rfl <;>
      (rw [String.data_append, String.data_append] at hdat
       have hlen2 := congrArg List.length hdat
       simp [List.length_append] at hlen2)

lemma exclude_misc_sublist (l : List SalesRecord) : List.Sublist (exclude_misc l) l :=
  (List.filter_sublist _).trans (List.filter_sublist _)

lemma supplier_filter_sublist (sel : Option String) (l : List SalesRecord) :
    List.Sublist (supplier_filter sel l) l := by
  cases sel with
  | none => exact List.Sublist.refl l
  | some n => exact List.filter_sublist _

lemma group_filter_sublist (grp : Option String) (l : List SalesRecord) :
    List.Sublist (group_filter grp l) l := by
  cases grp with
  | none => exact List.Sublist.refl l
  | some g => exact List.filter_sublist _

lemma selected_rows_sublist (excl : Bool) (sel grp : Option String) (l : List SalesRecord) :
    List.Sublist (selected_rows excl sel grp l) l := by
  unfold selected_rows
  refine (group_filter_sublist _ _).trans ((supplier_filter_sublist _ _).trans ?_)
  cases excl
  · show List.Sublist (fetch_data_from_json_url l) l
    exact List.filter_sublist l
  · show List.Sublist (exclude_misc (fetch_data_from_json_url l)) l
    exact (exclude_misc_sublist _).trans (List.filter_sublist _)

lemma sublist_singleton {α : Type} {x : List α} {a : α} (h : List.Sublist x [a]) :
    x = [a] ∨ x = [] := by
  cases h with
  | cons _ h2 => right; simpa using h2
  | cons₂ _ h2 => left; simpa using h2

lemma selected_rows_singleton (excl : Bool) (sel grp : Option String) (r : SalesRecord) :
    selected_rows excl sel grp [r] = [r] ∨ selected_rows excl sel grp [r] = [] :=
  sublist_singleton (selected_rows_sublist excl sel grp [r])

lemma selected_rows_append (excl : Bool) (sel grp : Option String) (l₁ l₂ : List SalesRecord) :
    selected_rows excl sel grp (l₁ ++ l₂)
      = selected_rows excl sel grp l₁ ++ selected_rows excl sel grp l₂ := by
  cases excl <;> cases sel <;> cases grp <;>
    simp [selected_rows, fetch_data_from_json_url, exclude_misc, supplier_filter,
      group_filter, List.filter_append]

lemma meanFval_ignore_nan (ms₁ ms₂ : List Fval) :
    meanFval (ms₁ ++ Fval.nan :: ms₂) = meanFval (ms₁ ++ ms₂) := by
  unfold meanFval
  rw [List.filter_append, List.filter_cons, List.filter_append]
  simp [Fval.isNaN]

lemma pivotCell_skip (r : SalesRecord) (a b : List SalesRecord) (t s : String)
    (h : recordClass r ≠ some (t, s) ∨ recordMargin r = Fval.nan) :
    pivotCell (a ++ r :: b) t s = pivotCell (a ++ b) t s := by
  unfold pivotCell groupRows
  rcases h with h | h
  · rw [List.filter_append, List.filter_append, List.filter_cons]
    simp [h]
  · rw [List.filter_append, List.filter_append, List.filter_cons]
    by_cases hm : recordClass r = some (t, s)
    · have hd : (decide (recordClass r = some (t, s))) = true := by simp [hm]
      simp only [hd, if_true, List.map_append, List.map_cons, h]
      exact meanFval_ignore_nan _ _
    · simp [hm]

lemma pivot_reindexed_skip (r : SalesRecord) (a b : List SalesRecord)
    (h : ∀ t s, t ∈ CUSTOMER_TYPES → s ∈ CUSTOMER_SIZES →
        recordClass r ≠ some (t, s) ∨ recordMargin r = Fval.nan) :
    pivot_reindexed (a ++ r :: b) = pivot_reindexed (a ++ b) := by
  unfold pivot_reindexed
  apply List.map_congr_left
  intro t ht
  refine congrArg _ ?_
  apply List.map_congr_left
  intro s hs
  exact congrArg _ (pivotCell_skip r a b t s (h t s ht hs))

lemma pipeline_matrix_skip (r : SalesRecord)
    (h : ∀ t s, t ∈ CUSTOMER_TYPES → s ∈ CUSTOMER_SIZES →
        recordClass r ≠ some (t, s) ∨ recordMargin r = Fval.nan)
    (excl : Bool) (sel grp : Option String) (l₁ l₂ : List SalesRecord) :
    pipeline_matrix excl sel grp (l₁ ++ r :: l₂) = pipeline_matrix excl sel grp (l₁ ++ l₂) := by
  unfold pipeline_matrix
  have hsplit : selected_rows excl sel grp (l₁ ++ r :: l₂)
      = selected_rows excl sel grp l₁ ++ selected_rows excl sel grp [r]
        ++ selected_rows excl sel grp l₂ := by
    rw [show l₁ ++ r :: l₂ = l₁ ++ [r] ++ l₂ by simp, selected_rows_append,
      selected_rows_append]
  rcases selected_rows_singleton excl sel grp r with hr | hr
  · rw [hsplit, hr, selected_rows_append, List.append_assoc]
    exact pivot_reindexed_skip r _ _ h
  · rw [hsplit, hr, selected_rows_append]
    simp

lemma selected_rows_invalid (r : SalesRecord) (hr : validRecord r = false)
    (excl : Bool) (sel grp : Option String) :
    selected_rows excl sel grp [r] = [] := by
  cases excl <;> cases sel <;> cases grp <;>
    simp [selected_rows, fetch_data_from_json_url, exclude_misc, supplier_filter,
      group_filter, List.filter, hr]

lemma pipeline_matrix_invalid (r : SalesRecord) (hr : validRecord r = false)
    (excl : Bool) (sel grp : Option String) (l₁ l₂ : List SalesRecord) :
    pipeline_matrix excl sel grp (l₁ ++ r :: l₂) = pipeline_matrix excl sel grp (l₁ ++ l₂) := by
  unfold pipeline_matrix
  rw [show l₁ ++ r :: l₂ = l₁ ++ [r] ++ l₂ by simp, selected_rows_append,
    selected_rows_append, selected_rows_invalid r hr, selected_rows_append]
  simp

/-- C1: for every record with sell price strictly positive and item cost
nonnegative, the computed margin is exactly `(sell − cost) / sell * 100`,
and that value is at most 100. -/
theorem c1_margin (r : SalesRecord) (sp c : ℚ)
    (hsp : r.sellPrice = some sp) (hpos : 0 < sp)
    (hc : r.itemCost = some c) (hnn : 0 ≤ c) :
    recordMargin r = Fval.fin ((sp - c) / sp * 100) ∧ (sp - c) / sp * 100 ≤ 100 := by
  constructor
  · simp [recordMargin, hsp, hc, marginPct, ieeeDiv, hpos.ne', Fval.mul100]
  · have h1 : (sp - c) / sp ≤ 1 := by
      rw [div_le_one hpos]; linarith
    calc (sp - c) / sp * 100 ≤ 1 * 100 :=
          mul_le_mul_of_nonneg_right h1 (by norm_num)
    _ = 100 := by norm_num

/-- Witness for C1 at the record with sell 100, cost 55. -/
theorem c1_margin_witness :
    recordMargin sampleGood = Fval.fin ((100 - 55) / 100 * 100) ∧
    ((100 : ℚ) - 55) / 100 * 100 ≤ 100 :=
  c1_margin sampleGood 100 55 rfl (by norm_num) rfl (by norm_num)

/-- C8: the discount-group exclusion filter (drop groups starting or
ending with `Z`) is idempotent. -/
theorem c8_idem (rows : List SalesRecord) :
    exclude_misc (exclude_misc rows) = exclude_misc rows := by
  unfold exclude_misc
  rw [List.filter_filter, List.filter_filter, List.filter_filter, List.filter_filter]
  apply List.filter_congr
  intro a ha
  cases h1 : (a.salesDiscountGroup.startsWith "Z") <;>
    cases h2 : (a.salesDiscountGroup.endsWith "Z") <;> simp [h1, h2]

/-- C5: a record with a missing or negative sell price, a missing or
negative item cost, a missing identifier, or an identifier the classifier
cannot parse, contributes to no cell of any actual-margin matrix the
program builds (for any exclusion flag, supplier selection and group
selection).  The filtering is silent: the pipeline is total and reports
nothing for the dropped row. -/
theorem c5_malformed (r : SalesRecord)
    (h : r.sellPrice = none ∨ (∃ sp, r.sellPrice = some sp ∧ sp < 0) ∨
         r.itemCost = none ∨ (∃ cc, r.itemCost = some cc ∧ cc < 0) ∨
         r.priceLibraryId = none ∨ (∃ pid, r.priceLibraryId = some pid ∧ classify pid = none))
    (excl : Bool) (sel grp : Option String) (l₁ l₂ : List SalesRecord) :
    pipeline_matrix excl sel grp (l₁ ++ r :: l₂) = pipeline_matrix excl sel grp (l₁ ++ l₂) := by
  rcases h with h | ⟨sp, hsp, hneg⟩ | h | ⟨cc, hcc, hneg⟩ | h | ⟨pid, hpid, hcl⟩
  · exact pipeline_matrix_invalid r (by simp [validRecord, h]) excl sel grp l₁ l₂
  · exact pipeline_matrix_invalid r (by simp [validRecord, hsp, not_le.mpr hneg]) excl sel grp l₁ l₂
  · exact pipeline_matrix_invalid r (by simp [validRecord, h]) excl sel grp l₁ l₂
  · exact pipeline_matrix_invalid r (by simp [validRecord, hcc, not_le.mpr hneg]) excl sel grp l₁ l₂
  · exact pipeline_matrix_invalid r (by simp [validRecord, h]) excl sel grp l₁ l₂
  · refine pipeline_matrix_skip r (fun t s _ _ => Or.inl ?_) excl sel grp l₁ l₂
    simp [recordClass, hpid, hcl]

/-- Witness for C5 at a record with a missing sell price. -/
theorem c5_malformed_witness :
    pipeline_matrix false none none ([] ++ sampleNoSell :: []) =
      pipeline_matrix false none none ([] ++ []) :=
  c5_malformed sampleNoSell (Or.inl rfl) false none none [] []

/-- C10: a record whose identifier parses (it ends in a valid size token)
but whose parsed customer type is not one of the five fixed types receives
a classification, yet contributes to no cell of any output matrix, because
the reindex to the fixed five types drops its row. -/
theorem c10_unknown_type (r : SalesRecord) (t₀ s₀ : String)
    (hcl : recordClass r = some (t₀, s₀)) (ht : t₀ ∉ CUSTOMER_TYPES)
    (excl : Bool) (sel grp : Option String) (l₁ l₂ : List SalesRecord) :
    pipeline_matrix excl sel grp (l₁ ++ r :: l₂) = pipeline_matrix excl sel grp (l₁ ++ l₂) := by
  refine pipeline_matrix_skip r (fun t s hT hS => Or.inl (fun hEq => ?_)) excl sel grp l₁ l₂
  rw [hcl] at hEq
  simp only [Option.some.injEq, Prod.mk.injEq] at hEq
  exact ht (by rw [hEq.1]; exact hT)

/-- Witness for C10 at the record with identifier `FOO_SMALL`. -/
theorem c10_unknown_type_witness :
    pipeline_matrix false none none ([] ++ sampleFoo :: []) =
      pipeline_matrix false none none ([] ++ []) :=
  c10_unknown_type sampleFoo "FOO" "SMALL" (by decide) (by decide) false none none [] []

/-- C2 (amended): a record with sell price 0 and item cost 0 has NaN
margin and contributes to no cell of any actual-margin matrix; but a
record with sell price 0 and item cost strictly positive has margin −∞
(not NaN), which does enter aggregation means. -/
theorem c2_amended (r : SalesRecord) (c : ℚ)
    (hsp : r.sellPrice = some 0) (hc : r.itemCost = some c) :
    (c = 0 → recordMargin r = Fval.nan ∧
      ∀ (excl : Bool) (sel grp : Option String) (l₁ l₂ : List SalesRecord),
        pipeline_matrix excl sel grp (l₁ ++ r :: l₂) = pipeline_matrix excl sel grp (l₁ ++ l₂)) ∧
    (0 < c → recordMargin r = Fval.ninf) := by
  constructor
  · rintro rfl
    have hm : recordMargin r = Fval.nan := by
      norm_num [recordMargin, hsp, hc, marginPct, ieeeDiv, Fval.mul100]
    exact ⟨hm, fun excl sel grp l₁ l₂ =>
      pipeline_matrix_skip r (fun t s _ _ => Or.inr hm) excl sel grp l₁ l₂⟩
  · intro hpos
    simp [recordMargin, hsp, hc, marginPct, ieeeDiv, Fval.mul100, lt_asymm hpos, hpos]

/-- Witness for the amended C2 at the records (sell 0, cost 0) and
(sell 0, cost 5). -/
theorem c2_amended_witness :
    (recordMargin sampleZeroZero = Fval.nan ∧
      pipeline_matrix false none none ([] ++ sampleZeroZero :: []) =
        pipeline_matrix false none none ([] ++ [])) ∧
    recordMargin sampleZeroSellPosCost = Fval.ninf := by
  constructor
  · have h := (c2_amended sampleZeroZero 0 rfl rfl).1 rfl
    exact ⟨h.1, h.2 false none none [] []⟩
  · exact (c2_amended sampleZeroSellPosCost 5 rfl rfl).2 (by norm_num)

lemma dfGet_diff (rows : List SalesRecord) (t s : String)
    (ht : t ∈ CUSTOMER_TYPES) (hs : s ∈ CUSTOMER_SIZES) :
    dfGet (diff_matrix rows) t s
      = some ((pivotCell rows t s).sub
          (Fval.fin (dictGet MINIMUM_MARGINS t + dictGet SIZE_OFFSETS s))) := by
  have hshape : diff_matrix rows
      = CUSTOMER_TYPES.map (fun t2 => (t2, CUSTOMER_SIZES.map (fun s2 =>
          (s2, (pivotCell rows t2 s2).sub
            ((dfGet get_ideal_margin_matrix t2 s2).getD Fval.nan))))) := by
    simp [diff_matrix, dfSub, pivot_reindexed, List.map_map, Function.comp]
  rw [hshape]
  unfold dfGet
  rw [lookup_map_self _ _ _ ht]
  simp only [Option.some_bind]
  rw [lookup_map_self _ _ _ hs]
  have hID := dfGet_ideal t s ht hs
  unfold dfGet at hID
  rw [hID]
  simp

lemma meanFval_fin (qs : List ℚ) (hne : qs ≠ []) :
    meanFval (qs.map Fval.fin) = Fval.fin (qs.sum / qs.length) := by
  cases qs with
  | nil => exact absurd rfl hne
  | cons q qs2 =>
    unfold meanFval
    rw [filter_map_fin]
    simp only [List.map_cons]
    have hfold := foldl_add_fin (q :: qs2) 0
    simp only [List.map_cons] at hfold
    rw [hfold]
    show Fval.divNat (Fval.fin (0 + (q :: qs2).sum)) (Fval.fin q :: qs2.map Fval.fin).length
        = Fval.fin ((q :: qs2).sum / ((q :: qs2).length : ℚ))
    simp [Fval.divNat]

/-- C3: the ideal matrix is a pure constant: its rows are exactly the
five customer types and its columns the five customer sizes in enumeration
order, and every cell equals `MINIMUM_MARGINS[type] + SIZE_OFFSETS[size]`. -/
theorem c3_ideal :
    (get_ideal_margin_matrix.map Prod.fst = CUSTOMER_TYPES ∧
     ∀ row ∈ get_ideal_margin_matrix, row.2.map Prod.fst = CUSTOMER_SIZES) ∧
    ∀ t s, t ∈ CUSTOMER_TYPES → s ∈ CUSTOMER_SIZES →
      dfGet get_ideal_margin_matrix t s
        = some (Fval.fin (dictGet MINIMUM_MARGINS t + dictGet SIZE_OFFSETS s)) := by
  refine ⟨⟨?_, ?_⟩, ?_⟩
  · rfl
  · intro row hrow
    simp only [get_ideal_margin_matrix, List.mem_map] at hrow
    obtain ⟨t, ht, rfl⟩ := hrow
    rfl
  · intro t s ht hs
    exact dfGet_ideal t s ht hs

/-- C7: for every record collection the pivoted matrix has exactly the
five fixed types as rows and five fixed sizes as columns in enumeration
order; each cell is the group's aggregate; a (type, size) group with no
records yields NaN (not zero); and a nonempty group whose margins are the
finite values `qs` yields their arithmetic mean `qs.sum / qs.length`. -/
theorem c7_aggregator (rows : List SalesRecord) :
    ((pivot_reindexed rows).map Prod.fst = CUSTOMER_TYPES ∧
     ∀ row ∈ pivot_reindexed rows, row.2.map Prod.fst = CUSTOMER_SIZES) ∧
    ∀ t s, t ∈ CUSTOMER_TYPES → s ∈ CUSTOMER_SIZES →
      dfGet (pivot_reindexed rows) t s = some (pivotCell rows t s) ∧
      (groupRows rows t s = [] → pivotCell rows t s = Fval.nan) ∧
      (∀ qs : List ℚ, (groupRows rows t s).map recordMargin = qs.map Fval.fin → qs ≠ [] →
        pivotCell rows t s = Fval.fin (qs.sum / qs.length)) := by
  refine ⟨⟨?_, ?_⟩, ?_⟩
  · rfl
  · intro row hrow
    simp only [pivot_reindexed, List.mem_map] at hrow
    obtain ⟨t, ht, rfl⟩ := hrow
    rfl
  · intro t s ht hs
    refine ⟨dfGet_pivot rows t s ht hs, ?_, ?_⟩
    · intro hempty
      simp [pivotCell, hempty, meanFval, List.filter]
    · intro qs hqs hne
      unfold pivotCell
      rw [hqs]
      exact meanFval_fin qs hne

lemma pivotCell_sampleGood : pivotCell [sampleGood] "JOBBER" "SMALL" = Fval.fin 45 := by
  norm_num [pivotCell, groupRows, recordClass, recordMargin, meanFval, marginPct, ieeeDiv,
    Fval.mul100, Fval.divNat, Fval.add, Fval.isNaN, classify, List.find?, List.filter, sampleGood]

lemma pivotCell_zeroPos : pivotCell [sampleZeroSellPosCost] "JOBBER" "SMALL" = Fval.ninf := by
  norm_num [pivotCell, groupRows, recordClass, recordMargin, meanFval, marginPct, ieeeDiv,
    Fval.mul100, Fval.divNat, Fval.add, Fval.isNaN, classify, List.find?, List.filter,
    sampleZeroSellPosCost]

lemma dict_JOBBER : dictGet MINIMUM_MARGINS "JOBBER" = 40 := rfl

lemma dict_SMALL : dictGet SIZE_OFFSETS "SMALL" = 6 := rfl

/-- C4: wherever the actual cell is a finite value `q`, the difference
cell is `q` minus the ideal value for that cell; wherever the actual cell
is undefined (NaN), the difference cell is undefined (NaN) — missingness
propagates and is never treated as zero. -/
theorem c4_diff (rows : List SalesRecord) (t s : String)
    (ht : t ∈ CUSTOMER_TYPES) (hs : s ∈ CUSTOMER_SIZES) :
    (∀ q : ℚ, dfGet (pivot_reindexed rows) t s = some (Fval.fin q) →
        dfGet (diff_matrix rows) t s
          = some (Fval.fin (q - (dictGet MINIMUM_MARGINS t + dictGet SIZE_OFFSETS s)))) ∧
    (dfGet (pivot_reindexed rows) t s = some Fval.nan →
        dfGet (diff_matrix rows) t s = some Fval.nan) := by
  have hdiff := dfGet_diff rows t s ht hs
  have hact := dfGet_pivot rows t s ht hs
  constructor
  · intro q hq
    rw [hact] at hq
    injection hq with hq
    rw [hdiff, hq]
    simp [Fval.sub, Fval.neg, Fval.add, sub_eq_add_neg]
  · intro hq
    rw [hact] at hq
    injection hq with hq
    rw [hdiff, hq]
    rfl

/-- Witness for C4 on the singleton data set containing `sampleGood`. -/
theorem c4_diff_witness :
    dfGet (diff_matrix [sampleGood]) "JOBBER" "SMALL"
      = some (Fval.fin (45 - (dictGet MINIMUM_MARGINS "JOBBER" + dictGet SIZE_OFFSETS "SMALL"))) := by
  refine (c4_diff [sampleGood] "JOBBER" "SMALL" (by decide) (by decide)).1 45 ?_
  rw [dfGet_pivot _ _ _ (by decide) (by decide), pivotCell_sampleGood]

/-- Witness for C3 at the cell (TP, TINY). -/
theorem c3_ideal_witness :
    dfGet get_ideal_margin_matrix "TP" "TINY"
      = some (Fval.fin (dictGet MINIMUM_MARGINS "TP" + dictGet SIZE_OFFSETS "TINY")) :=
  c3_ideal.2 "TP" "TINY" (by decide) (by decide)

/-- Witness for C7 on the singleton data set containing `sampleGood`. -/
theorem c7_aggregator_witness :
    dfGet (pivot_reindexed [sampleGood]) "JOBBER" "SMALL"
      = some (pivotCell [sampleGood] "JOBBER" "SMALL") ∧
    pivotCell [sampleGood] "USER" "MED" = Fval.nan ∧
    pivotCell [sampleGood] "JOBBER" "SMALL" = Fval.fin (([45] : List ℚ).sum / ([45] : List ℚ).length) := by
  refine ⟨((c7_aggregator [sampleGood]).2 "JOBBER" "SMALL" (by decide) (by decide)).1,
    ((c7_aggregator [sampleGood]).2 "USER" "MED" (by decide) (by decide)).2.1 (by decide),
    ((c7_aggregator [sampleGood]).2 "JOBBER" "SMALL" (by decide) (by decide)).2.2 [45] ?_ (by decide)⟩
  have hg : groupRows [sampleGood] "JOBBER" "SMALL" = [sampleGood] := by decide
  rw [hg]
  norm_num [recordMargin, sampleGood, marginPct, ieeeDiv, Fval.mul100]

/-- C9: the concrete record with id `JOBBER_SMALL`, sell 100, cost 55:
classification (JOBBER, SMALL), margin 45, ideal cell 40 + 6 = 46,
difference cell −1. -/
theorem c9_worked_example :
    classify "JOBBER_SMALL" = some ("JOBBER", "SMALL") ∧
    marginPct 100 55 = Fval.fin 45 ∧
    dfGet get_ideal_margin_matrix "JOBBER" "SMALL" = some (Fval.fin 46) ∧
    dfGet (diff_matrix [sampleGood]) "JOBBER" "SMALL" = some (Fval.fin (-1)) := by
  refine ⟨by decide, by norm_num [marginPct, ieeeDiv, Fval.mul100], ?_, ?_⟩
  · rw [dfGet_ideal _ _ (by decide) (by decide), dict_JOBBER, dict_SMALL]
    norm_num
  · rw [dfGet_diff _ _ _ (by decide) (by decide), pivotCell_sampleGood, dict_JOBBER, dict_SMALL]
    norm_num [Fval.sub, Fval.neg, Fval.add]

/-- C2 (counterexample to the original claim): the record with sell
price 0 and item cost 5 has margin −∞, which is not NaN, and it does
contribute to the (JOBBER, SMALL) cell: with the record the cell is −∞,
without it the cell is NaN. -/
theorem c2_counterexample :
    recordMargin sampleZeroSellPosCost ≠ Fval.nan ∧
    dfGet (pivot_reindexed [sampleZeroSellPosCost]) "JOBBER" "SMALL" = some Fval.ninf ∧
    dfGet (pivot_reindexed []) "JOBBER" "SMALL" = some Fval.nan := by
  refine ⟨?_, ?_, ?_⟩
  · have hm : recordMargin sampleZeroSellPosCost = Fval.ninf := by
      norm_num [recordMargin, sampleZeroSellPosCost, marginPct, ieeeDiv, Fval.mul100]
    rw [hm]
    simp
  · rw [dfGet_pivot _ _ _ (by decide) (by decide), pivotCell_zeroPos]
  · rw [dfGet_pivot _ _ _ (by decide) (by decide)]
    rfl
